import Mathlib

/-!
Verification of the Cycles principled-diffuse BSDF closure
(`intern/cycles/kernel/closure/bsdf_principled_diffuse.h`) and of the CPU
path-trace work scheduler (`intern/cycles/integrator/path_trace_work_cpu.h`),
shallowly embedded over the real numbers.  Kernel `float` arithmetic is
idealized as real arithmetic; out-parameters written through pointers are
modelled by threading their pre-call values through the functions and
returning the post-call values.
-/

/-- Embedding of the kernel `float3` vector type (three scalar components). -/
structure float3 where
  x : ℝ
  y : ℝ
  z : ℝ

/-- Embedding of `make_float3`. -/
def make_float3 (x y z : ℝ) : float3 := ⟨x, y, z⟩

/-- Embedding of the kernel `dot` product on `float3`. -/
def dot (a b : float3) : ℝ := a.x * b.x + a.y * b.y + a.z * b.z

/-- Componentwise vector addition, as in the kernel `float3` operators. -/
instance : Add float3 := ⟨fun a b => ⟨a.x + b.x, a.y + b.y, a.z + b.z⟩⟩

/-- Componentwise vector subtraction, as in the kernel `float3` operators. -/
instance : Sub float3 := ⟨fun a b => ⟨a.x - b.x, a.y - b.y, a.z - b.z⟩⟩

/-- Componentwise vector negation, as in the kernel `float3` operators. -/
instance : Neg float3 := ⟨fun a => ⟨-a.x, -a.y, -a.z⟩⟩

/-- Scalar-vector multiplication, as in the kernel `float3` operators. -/
instance : SMul ℝ float3 := ⟨fun c a => ⟨c * a.x, c * a.y, c * a.z⟩⟩

/-- Embedding of the kernel `cross` product on `float3`. -/
def cross (a b : float3) : float3 :=
  ⟨a.y * b.z - a.z * b.y, a.z * b.x - a.x * b.z, a.x * b.y - a.y * b.x⟩

/-- The kernel constant `M_1_PI_F`, the reciprocal of pi. -/
noncomputable def M_1_PI_F : ℝ := 1 / Real.pi

/-- Modelled from the spec: the Schlick approximation used for the
Fresnel-like weighting terms `FL`, `FV` (the kernel helper
`schlick_fresnel` lives in `bsdf_util.h`, which is not among the analyzed
sources): the fifth power of the clamped complement of the cosine. -/
def schlick_fresnel (u : ℝ) : ℝ := (min (max (1 - u) 0) 1) ^ 5

/-- Modelled from the spec: closure type tags; the analyzed closure sets
`CLOSURE_BSDF_PRINCIPLED_DIFFUSE_ID` (the full `ClosureType` enumeration is
not among the analyzed sources). -/
inductive ClosureType where
  | CLOSURE_NONE_ID
  | CLOSURE_BSDF_PRINCIPLED_DIFFUSE_ID
deriving DecidableEq

/-- Modelled from the spec: shader-data capability flag, support for BSDF
reflection (bit value itself immaterial, the flags are distinct bits). -/
def SD_BSDF : Nat := 1

/-- Modelled from the spec: shader-data capability flag, closure supports
direct evaluation. -/
def SD_BSDF_HAS_EVAL : Nat := 2

/-- Modelled from the spec: scatter-event label bit for reflection. -/
def LABEL_REFLECT : Nat := 8

/-- Modelled from the spec: scatter-event label bit for diffuse scattering. -/
def LABEL_DIFFUSE : Nat := 16

/-- Embedding of `PrincipledDiffuseBsdf`: the `SHADER_CLOSURE_BASE` fields
relevant to the analyzed code (type tag and shading normal `N`) plus the
model-specific `roughness` parameter. -/
structure PrincipledDiffuseBsdf where
  type : ClosureType
  N : float3
  roughness : ℝ

/-- Embedding of `calculate_principled_diffuse_brdf`.  The C function takes a
`float *pdf` that it never writes; the pre-call value is threaded through and
returned unchanged on both branches. -/
noncomputable def calculate_principled_diffuse_brdf
    (bsdf : PrincipledDiffuseBsdf) (N V L : float3) (pdf : ℝ) : float3 × ℝ :=
  let NdotL := dot N L
  if NdotL ≤ 0 then
    (make_float3 0 0 0, pdf)
  else
    let NdotV := dot N V
    let LH2 := dot L V + 1
    let FL := schlick_fresnel NdotL
    let FV := schlick_fresnel NdotV
    let Fd90 := 0.5 + LH2 * bsdf.roughness
    let Fd := (1 - FL + Fd90 * FL) * (1 - FV + Fd90 * FV)
    let value := M_1_PI_F * NdotL * Fd
    (make_float3 value value value, pdf)

/-- Embedding of `bsdf_principled_diffuse_setup`: returns the updated closure
and the capability flags. -/
def bsdf_principled_diffuse_setup (bsdf : PrincipledDiffuseBsdf) :
    PrincipledDiffuseBsdf × Nat :=
  ({ bsdf with type := ClosureType.CLOSURE_BSDF_PRINCIPLED_DIFFUSE_ID },
    SD_BSDF ||| SD_BSDF_HAS_EVAL)

/-- Embedding of `bsdf_principled_diffuse_eval_reflect`: returns the
contribution and the value written through `pdf` (written on both branches,
so no pre-call value is needed). -/
noncomputable def bsdf_principled_diffuse_eval_reflect
    (bsdf : PrincipledDiffuseBsdf) (I omega_in : float3) : float3 × ℝ :=
  let N := bsdf.N
  let V := I
  let L := omega_in
  if 0 < dot N omega_in then
    let pdf1 := max (dot N omega_in) 0 * M_1_PI_F
    calculate_principled_diffuse_brdf bsdf N V L pdf1
  else
    (make_float3 0 0 0, 0)

/-- Embedding of `bsdf_principled_diffuse_eval_transmit`: the body only
returns a zero contribution; the `pdf` out-parameter is never written, so the
returned pdf is the threaded pre-call value. -/
def bsdf_principled_diffuse_eval_transmit
    (sc : PrincipledDiffuseBsdf) (I omega_in : float3) (pdf : ℝ) :
    float3 × ℝ :=
  (make_float3 0 0 0, pdf)

/-- The contribution formula exactly as the spec states it:
`(1/pi) * NdotL * (1-FL+Fd90*FL) * (1-FV+Fd90*FV)` with `FL`, `FV` the
Schlick-Fresnel terms of `dot(N,L)` and `dot(N,V)` and
`Fd90 = 0.5 + (dot(L,V)+1) * roughness`. -/
noncomputable def principled_diffuse_spec_value
    (roughness : ℝ) (N V L : float3) : ℝ :=
  let FL := schlick_fresnel (dot N L)
  let FV := schlick_fresnel (dot N V)
  let Fd90 := 0.5 + (dot L V + 1) * roughness
  1 / Real.pi * dot N L * ((1 - FL + Fd90 * FL) * (1 - FV + Fd90 * FV))

/-- Helper: the pdf threaded through `calculate_principled_diffuse_brdf` comes
back unchanged on both branches. -/
theorem calculate_principled_diffuse_brdf_snd
    (bsdf : PrincipledDiffuseBsdf) (N V L : float3) (pdf : ℝ) :
    (calculate_principled_diffuse_brdf bsdf N V L pdf).2 = pdf := by
  simp only [calculate_principled_diffuse_brdf]
  split <;> rfl

/-- Helper: the contribution computed by `calculate_principled_diffuse_brdf`
does not depend on the threaded pdf value. -/
theorem calculate_principled_diffuse_brdf_fst_pdf_indep
    (bsdf : PrincipledDiffuseBsdf) (N V L : float3) (p q : ℝ) :
    (calculate_principled_diffuse_brdf bsdf N V L p).1 =
      (calculate_principled_diffuse_brdf bsdf N V L q).1 := by
  simp only [calculate_principled_diffuse_brdf]
  split <;> rfl

/-- Helper: on the wrong side (`dot N L ≤ 0`) the brdf contribution is zero. -/
theorem calculate_principled_diffuse_brdf_fst_nonpos
    (bsdf : PrincipledDiffuseBsdf) (N V L : float3) (pdf : ℝ)
    (h : dot N L ≤ 0) :
    (calculate_principled_diffuse_brdf bsdf N V L pdf).1 = make_float3 0 0 0 := by
  simp only [calculate_principled_diffuse_brdf]
  rw [if_pos h]

/-- C1: for every roughness, shading normal `N`, unit outgoing `V` and unit
incoming `L` with `dot(N,L) > 0`, the contribution returned by
`calculate_principled_diffuse_brdf` — and hence by
`bsdf_principled_diffuse_eval_reflect` on its valid branch — equals
`(1/pi) * NdotL * (1-FL+Fd90*FL) * (1-FV+Fd90*FV)` with
`Fd90 = 0.5 + (dot(L,V)+1) * roughness`, replicated into all three color
channels. -/
theorem principled_diffuse_brdf_formula
    (bsdf : PrincipledDiffuseBsdf) (V L : float3) (pdf : ℝ)
    (hV : dot V V = 1) (hL : dot L L = 1) (hNL : 0 < dot bsdf.N L) :
    (calculate_principled_diffuse_brdf bsdf bsdf.N V L pdf).1 =
      make_float3 (principled_diffuse_spec_value bsdf.roughness bsdf.N V L)
        (principled_diffuse_spec_value bsdf.roughness bsdf.N V L)
        (principled_diffuse_spec_value bsdf.roughness bsdf.N V L) ∧
    (bsdf_principled_diffuse_eval_reflect bsdf V L).1 =
      make_float3 (principled_diffuse_spec_value bsdf.roughness bsdf.N V L)
        (principled_diffuse_spec_value bsdf.roughness bsdf.N V L)
        (principled_diffuse_spec_value bsdf.roughness bsdf.N V L) := by
  have hmain :
      (calculate_principled_diffuse_brdf bsdf bsdf.N V L pdf).1 =
        make_float3 (principled_diffuse_spec_value bsdf.roughness bsdf.N V L)
          (principled_diffuse_spec_value bsdf.roughness bsdf.N V L)
          (principled_diffuse_spec_value bsdf.roughness bsdf.N V L) := by
    simp only [calculate_principled_diffuse_brdf, principled_diffuse_spec_value]
    rw [if_neg (not_le.mpr hNL)]
    simp only [make_float3, M_1_PI_F, float3.mk.injEq]
  refine ⟨hmain, ?_⟩
  simp only [bsdf_principled_diffuse_eval_reflect]
  rw [if_pos hNL]
  rw [calculate_principled_diffuse_brdf_fst_pdf_indep bsdf bsdf.N V L _ pdf]
  exact hmain

/-- Witness for C1 at `N = V = L = (0,0,1)`, roughness `0`. -/
theorem principled_diffuse_brdf_formula_witness :
    dot (make_float3 0 0 1) (make_float3 0 0 1) = 1 ∧
    (0 : ℝ) <
      dot (PrincipledDiffuseBsdf.mk
        ClosureType.CLOSURE_BSDF_PRINCIPLED_DIFFUSE_ID (make_float3 0 0 1) 0).N
        (make_float3 0 0 1) ∧
    (calculate_principled_diffuse_brdf
        (PrincipledDiffuseBsdf.mk
          ClosureType.CLOSURE_BSDF_PRINCIPLED_DIFFUSE_ID (make_float3 0 0 1) 0)
        (PrincipledDiffuseBsdf.mk
          ClosureType.CLOSURE_BSDF_PRINCIPLED_DIFFUSE_ID (make_float3 0 0 1) 0).N
        (make_float3 0 0 1) (make_float3 0 0 1) 0).1 =
      make_float3
        (principled_diffuse_spec_value 0 (make_float3 0 0 1) (make_float3 0 0 1)
          (make_float3 0 0 1))
        (principled_diffuse_spec_value 0 (make_float3 0 0 1) (make_float3 0 0 1)
          (make_float3 0 0 1))
        (principled_diffuse_spec_value 0 (make_float3 0 0 1) (make_float3 0 0 1)
          (make_float3 0 0 1)) := by
  refine ⟨by norm_num [dot, make_float3], by norm_num [dot, make_float3], ?_⟩
  exact (principled_diffuse_brdf_formula
    (PrincipledDiffuseBsdf.mk
      ClosureType.CLOSURE_BSDF_PRINCIPLED_DIFFUSE_ID (make_float3 0 0 1) 0)
    (make_float3 0 0 1) (make_float3 0 0 1) 0
    (by norm_num [dot, make_float3]) (by norm_num [dot, make_float3])
    (by norm_num [dot, make_float3])).1

/-- C2: whenever `dot(N, omega_in) ≤ 0`, `bsdf_principled_diffuse_eval_reflect`
returns a zero contribution in every channel and writes `0` through its pdf
out-parameter. -/
theorem eval_reflect_wrong_side_zero
    (bsdf : PrincipledDiffuseBsdf) (I omega_in : float3)
    (h : dot bsdf.N omega_in ≤ 0) :
    bsdf_principled_diffuse_eval_reflect bsdf I omega_in =
      (make_float3 0 0 0, 0) := by
  simp only [bsdf_principled_diffuse_eval_reflect]
  rw [if_neg (not_lt.mpr h)]

/-- Witness for C2 at `N = (0,0,1)`, `omega_in = (0,0,-1)`. -/
theorem eval_reflect_wrong_side_zero_witness :
    dot (PrincipledDiffuseBsdf.mk
        ClosureType.CLOSURE_BSDF_PRINCIPLED_DIFFUSE_ID (make_float3 0 0 1) 0).N
      (make_float3 0 0 (-1)) ≤ 0 ∧
    bsdf_principled_diffuse_eval_reflect
      (PrincipledDiffuseBsdf.mk
        ClosureType.CLOSURE_BSDF_PRINCIPLED_DIFFUSE_ID (make_float3 0 0 1) 0)
      (make_float3 0 0 1) (make_float3 0 0 (-1)) =
      (make_float3 0 0 0, 0) := by
  refine ⟨by norm_num [dot, make_float3], ?_⟩
  exact eval_reflect_wrong_side_zero
    (PrincipledDiffuseBsdf.mk
      ClosureType.CLOSURE_BSDF_PRINCIPLED_DIFFUSE_ID (make_float3 0 0 1) 0)
    (make_float3 0 0 1) (make_float3 0 0 (-1))
    (by norm_num [dot, make_float3])

/-- Modelled from the spec: mapping a pair of random numbers to the unit disk
(the kernel helper `to_unit_disk` is not among the analyzed sources): polar
angle `2*pi*u`, radius `sqrt v`. -/
noncomputable def to_unit_disk (u v : ℝ) : ℝ × ℝ :=
  let phi := 2 * Real.pi * u
  let r := Real.sqrt v
  (r * Real.cos phi, r * Real.sin phi)

/-- Vector normalization, as in the kernel helper `normalize` (renamed here
because Mathlib already declares a root-level `normalize`). -/
noncomputable def float3_normalize (v : float3) : float3 :=
  (1 / Real.sqrt (dot v v)) • v

/-- Modelled from the spec: a deterministic tangent frame around the normal
(the kernel helper `make_orthonormals` is not among the analyzed sources; the
spec leaves the frame choice open, so any fixed choice serves). -/
noncomputable def make_orthonormals (N : float3) : float3 × float3 :=
  let a := if N.x ≠ N.y ∨ N.x ≠ N.z
    then make_float3 (N.z - N.y) (N.x - N.z) (N.y - N.x)
    else make_float3 (N.z - N.y) (N.x + N.z) (-N.y - N.x)
  let T := float3_normalize a
  (T, cross N T)

/-- Modelled from the spec: cosine-weighted hemisphere sampling around `N`
with density `cos(theta)/pi` (the kernel helper `sample_cos_hemisphere` is
not among the analyzed sources).  Returns the sampled direction and the pdf
written through the out-parameter. -/
noncomputable def sample_cos_hemisphere (N : float3) (randu randv : ℝ) :
    float3 × ℝ :=
  let d := to_unit_disk randu randv
  let costheta := Real.sqrt (max (1 - d.1 * d.1 - d.2 * d.2) 0)
  let TB := make_orthonormals N
  (d.1 • TB.1 + d.2 • TB.2 + costheta • N, costheta * M_1_PI_F)

/-- Pre- and post-call values of the out-parameters of
`bsdf_principled_diffuse_sample` (`eval`, `omega_in`, `domega_in_dx`,
`domega_in_dy`, `pdf`). -/
structure SampleOut where
  eval : float3
  omega_in : float3
  domega_in_dx : float3
  domega_in_dy : float3
  pdf : ℝ

/-- Embedding of `bsdf_principled_diffuse_sample` (with
`__RAY_DIFFERENTIALS__` enabled, as in the CPU build): takes the pre-call
values of the out-parameters and returns their post-call values together with
the returned label. -/
noncomputable def bsdf_principled_diffuse_sample
    (bsdf : PrincipledDiffuseBsdf) (Ng I dIdx dIdy : float3)
    (randu randv : ℝ) (io : SampleOut) : SampleOut × Nat :=
  let N := bsdf.N
  let s := sample_cos_hemisphere N randu randv
  let omega_in := s.1
  let pdf0 := s.2
  if 0 < dot Ng omega_in then
    let r := calculate_principled_diffuse_brdf bsdf N I omega_in pdf0
    ({ eval := r.1, omega_in := omega_in,
       domega_in_dx := -((2 * dot N dIdx) • N - dIdx),
       domega_in_dy := -((2 * dot N dIdy) • N - dIdy),
       pdf := r.2 }, LABEL_REFLECT ||| LABEL_DIFFUSE)
  else
    ({ io with omega_in := omega_in, pdf := 0 },
      LABEL_REFLECT ||| LABEL_DIFFUSE)

/-- Helper: componentwise description of scalar multiplication on `float3`. -/
theorem float3_smul_def (c : ℝ) (v : float3) :
    c • v = float3.mk (c * v.x) (c * v.y) (c * v.z) := rfl

/-- Helper: componentwise description of addition on `float3`. -/
theorem float3_add_def (a b : float3) :
    a + b = float3.mk (a.x + b.x) (a.y + b.y) (a.z + b.z) := rfl

/-- Helper: at `N = (0,0,1)` and `randu = randv = 0` the modelled cosine
hemisphere sampler returns the normal itself. -/
theorem sample_cos_hemisphere_at_pole :
    (sample_cos_hemisphere (make_float3 0 0 1) 0 0).1 = make_float3 0 0 1 := by
  simp only [sample_cos_hemisphere, to_unit_disk, float3_smul_def,
    float3_add_def, make_float3, float3.mk.injEq]
  norm_num [Real.sqrt_zero, max_eq_left zero_le_one, Real.sqrt_one]

/-- C3: when the cosine-hemisphere-sampled direction lies below the geometric
normal (`dot(Ng, omega_in) ≤ 0`), `bsdf_principled_diffuse_sample` flags the
result invalid by writing `pdf = 0`, so a caller checking the pdf can
terminate the path branch. -/
theorem sample_below_geometric_normal_zero_pdf
    (bsdf : PrincipledDiffuseBsdf) (Ng I dIdx dIdy : float3)
    (randu randv : ℝ) (io : SampleOut)
    (h : dot Ng (sample_cos_hemisphere bsdf.N randu randv).1 ≤ 0) :
    ((bsdf_principled_diffuse_sample bsdf Ng I dIdx dIdy randu randv io).1).pdf
      = 0 := by
  simp only [bsdf_principled_diffuse_sample]
  rw [if_neg (not_lt.mpr h)]

/-- Witness for C3: shading normal `(0,0,1)`, geometric normal `(0,0,-1)`,
random pair `(0,0)`; the sampled direction is `(0,0,1)`, below `Ng`. -/
theorem sample_below_geometric_normal_zero_pdf_witness :
    dot (make_float3 0 0 (-1))
      (sample_cos_hemisphere (make_float3 0 0 1) 0 0).1 ≤ 0 ∧
    ((bsdf_principled_diffuse_sample
        (PrincipledDiffuseBsdf.mk ClosureType.CLOSURE_BSDF_PRINCIPLED_DIFFUSE_ID
          (make_float3 0 0 1) 0)
        (make_float3 0 0 (-1)) (make_float3 0 0 1)
        (make_float3 0 0 0) (make_float3 0 0 0) 0 0
        (SampleOut.mk (make_float3 0 0 0) (make_float3 0 0 0)
          (make_float3 0 0 0) (make_float3 0 0 0) 0)).1).pdf = 0 := by
  have h : dot (make_float3 0 0 (-1))
      (sample_cos_hemisphere (make_float3 0 0 1) 0 0).1 ≤ 0 := by
    rw [sample_cos_hemisphere_at_pole]
    norm_num [dot, make_float3]
  exact ⟨h, sample_below_geometric_normal_zero_pdf
    (PrincipledDiffuseBsdf.mk ClosureType.CLOSURE_BSDF_PRINCIPLED_DIFFUSE_ID
      (make_float3 0 0 1) 0)
    (make_float3 0 0 (-1)) (make_float3 0 0 1)
    (make_float3 0 0 0) (make_float3 0 0 0) 0 0
    (SampleOut.mk (make_float3 0 0 0) (make_float3 0 0 0)
      (make_float3 0 0 0) (make_float3 0 0 0) 0) h⟩

/-- C9: on the invalid branch (`dot(Ng, omega_in) ≤ 0`) the sample routine
leaves the `eval` and ray-differential out-parameters at their pre-call
values, writes only `pdf = 0`, and still returns the label
`LABEL_REFLECT ||| LABEL_DIFFUSE`: invalidity is signalled solely through the
pdf. -/
theorem sample_invalid_branch_frame
    (bsdf : PrincipledDiffuseBsdf) (Ng I dIdx dIdy : float3)
    (randu randv : ℝ) (io : SampleOut)
    (h : dot Ng (sample_cos_hemisphere bsdf.N randu randv).1 ≤ 0) :
    ((bsdf_principled_diffuse_sample bsdf Ng I dIdx dIdy randu randv io).1).eval
        = io.eval ∧
    ((bsdf_principled_diffuse_sample bsdf Ng I dIdx dIdy randu randv
        io).1).domega_in_dx = io.domega_in_dx ∧
    ((bsdf_principled_diffuse_sample bsdf Ng I dIdx dIdy randu randv
        io).1).domega_in_dy = io.domega_in_dy ∧
    ((bsdf_principled_diffuse_sample bsdf Ng I dIdx dIdy randu randv io).1).pdf
        = 0 ∧
    (bsdf_principled_diffuse_sample bsdf Ng I dIdx dIdy randu randv io).2
        = LABEL_REFLECT ||| LABEL_DIFFUSE := by
  have hres : bsdf_principled_diffuse_sample bsdf Ng I dIdx dIdy randu randv io
      = ({ io with
            omega_in := (sample_cos_hemisphere bsdf.N randu randv).1
            pdf := 0 }, LABEL_REFLECT ||| LABEL_DIFFUSE) := by
    simp only [bsdf_principled_diffuse_sample]
    rw [if_neg (not_lt.mpr h)]
  rw [hres]
  exact ⟨rfl, rfl, rfl, rfl, rfl⟩

/-- Witness for C9 at the same concrete configuration as the C3 witness, with
nonzero pre-call out-parameter values to make the frame condition visible. -/
theorem sample_invalid_branch_frame_witness :
    dot (make_float3 0 0 (-1))
      (sample_cos_hemisphere (make_float3 0 0 1) 0 0).1 ≤ 0 ∧
    ((bsdf_principled_diffuse_sample
        (PrincipledDiffuseBsdf.mk ClosureType.CLOSURE_BSDF_PRINCIPLED_DIFFUSE_ID
          (make_float3 0 0 1) 0)
        (make_float3 0 0 (-1)) (make_float3 0 0 1)
        (make_float3 0 0 0) (make_float3 0 0 0) 0 0
        (SampleOut.mk (make_float3 5 6 7) (make_float3 0 0 0)
          (make_float3 1 2 3) (make_float3 4 5 6) 9)).1).eval
      = make_float3 5 6 7 ∧
    ((bsdf_principled_diffuse_sample
        (PrincipledDiffuseBsdf.mk ClosureType.CLOSURE_BSDF_PRINCIPLED_DIFFUSE_ID
          (make_float3 0 0 1) 0)
        (make_float3 0 0 (-1)) (make_float3 0 0 1)
        (make_float3 0 0 0) (make_float3 0 0 0) 0 0
        (SampleOut.mk (make_float3 5 6 7) (make_float3 0 0 0)
          (make_float3 1 2 3) (make_float3 4 5 6) 9)).1).pdf = 0 := by
  have h : dot (make_float3 0 0 (-1))
      (sample_cos_hemisphere (make_float3 0 0 1) 0 0).1 ≤ 0 := by
    rw [sample_cos_hemisphere_at_pole]
    norm_num [dot, make_float3]
  have happ := sample_invalid_branch_frame
    (PrincipledDiffuseBsdf.mk ClosureType.CLOSURE_BSDF_PRINCIPLED_DIFFUSE_ID
      (make_float3 0 0 1) 0)
    (make_float3 0 0 (-1)) (make_float3 0 0 1)
    (make_float3 0 0 0) (make_float3 0 0 0) 0 0
    (SampleOut.mk (make_float3 5 6 7) (make_float3 0 0 0)
      (make_float3 1 2 3) (make_float3 4 5 6) 9) h
  exact ⟨h, happ.1, happ.2.2.2.1⟩

/-- C10: on the valid side (`dot(N, omega_in) > 0`) the pdf written by
`bsdf_principled_diffuse_eval_reflect` is the cosine-hemisphere density
`dot(N, omega_in) * (1/pi)`, independent of roughness: the pdf assigned
before the brdf call is returned because `calculate_principled_diffuse_brdf`
never writes through its pdf parameter. -/
theorem eval_reflect_pdf_cosine
    (bsdf : PrincipledDiffuseBsdf) (I omega_in : float3)
    (h : 0 < dot bsdf.N omega_in) :
    (bsdf_principled_diffuse_eval_reflect bsdf I omega_in).2 =
      dot bsdf.N omega_in * (1 / Real.pi) := by
  simp only [bsdf_principled_diffuse_eval_reflect]
  rw [if_pos h, calculate_principled_diffuse_brdf_snd, max_eq_left h.le]
  rw [M_1_PI_F]

/-- Witness for C10 at `N = omega_in = (0,0,1)`. -/
theorem eval_reflect_pdf_cosine_witness :
    (0 : ℝ) < dot (make_float3 0 0 1) (make_float3 0 0 1) ∧
    (bsdf_principled_diffuse_eval_reflect
        (PrincipledDiffuseBsdf.mk ClosureType.CLOSURE_BSDF_PRINCIPLED_DIFFUSE_ID
          (make_float3 0 0 1) 0)
        (make_float3 0 0 1) (make_float3 0 0 1)).2 =
      dot (make_float3 0 0 1) (make_float3 0 0 1) * (1 / Real.pi) := by
  refine ⟨by norm_num [dot, make_float3], ?_⟩
  exact eval_reflect_pdf_cosine
    (PrincipledDiffuseBsdf.mk ClosureType.CLOSURE_BSDF_PRINCIPLED_DIFFUSE_ID
      (make_float3 0 0 1) 0)
    (make_float3 0 0 1) (make_float3 0 0 1)
    (by norm_num [dot, make_float3])

/-- C4: for roughness inside the valid clamped range, whenever the sample
routine returns a valid (above-geometric-normal) direction, evaluating
`bsdf_principled_diffuse_eval_reflect` with the same outgoing direction and
the returned incoming direction reproduces the contribution that the sample
routine wrote to its `eval` output. -/
theorem sample_eval_reflect_consistency
    (bsdf : PrincipledDiffuseBsdf) (Ng I dIdx dIdy : float3)
    (randu randv : ℝ) (io : SampleOut)
    (h0 : 0 ≤ bsdf.roughness) (h1 : bsdf.roughness ≤ 1)
    (hvalid : 0 < dot Ng (sample_cos_hemisphere bsdf.N randu randv).1) :
    (bsdf_principled_diffuse_eval_reflect bsdf I
        ((bsdf_principled_diffuse_sample bsdf Ng I dIdx dIdy randu randv
          io).1).omega_in).1 =
      ((bsdf_principled_diffuse_sample bsdf Ng I dIdx dIdy randu randv
        io).1).eval := by
  simp only [bsdf_principled_diffuse_sample]
  rw [if_pos hvalid]
  by_cases hN : 0 < dot bsdf.N (sample_cos_hemisphere bsdf.N randu randv).1
  · simp only [bsdf_principled_diffuse_eval_reflect]
    rw [if_pos hN]
    exact calculate_principled_diffuse_brdf_fst_pdf_indep bsdf bsdf.N I
      (sample_cos_hemisphere bsdf.N randu randv).1 _ _
  · simp only [bsdf_principled_diffuse_eval_reflect]
    rw [if_neg hN, calculate_principled_diffuse_brdf_fst_nonpos bsdf bsdf.N I
      (sample_cos_hemisphere bsdf.N randu randv).1 _ (not_lt.mp hN)]

/-- Witness for C4: shading and geometric normal `(0,0,1)`, random pair
`(0,0)`, roughness `0`. -/
theorem sample_eval_reflect_consistency_witness :
    (0 : ℝ) ≤ 0 ∧ (0 : ℝ) ≤ 1 ∧
    (0 : ℝ) < dot (make_float3 0 0 1)
      (sample_cos_hemisphere (make_float3 0 0 1) 0 0).1 ∧
    (bsdf_principled_diffuse_eval_reflect
        (PrincipledDiffuseBsdf.mk ClosureType.CLOSURE_BSDF_PRINCIPLED_DIFFUSE_ID
          (make_float3 0 0 1) 0)
        (make_float3 0 0 1)
        ((bsdf_principled_diffuse_sample
          (PrincipledDiffuseBsdf.mk ClosureType.CLOSURE_BSDF_PRINCIPLED_DIFFUSE_ID
            (make_float3 0 0 1) 0)
          (make_float3 0 0 1) (make_float3 0 0 1)
          (make_float3 0 0 0) (make_float3 0 0 0) 0 0
          (SampleOut.mk (make_float3 0 0 0) (make_float3 0 0 0)
            (make_float3 0 0 0) (make_float3 0 0 0) 0)).1).omega_in).1 =
      ((bsdf_principled_diffuse_sample
          (PrincipledDiffuseBsdf.mk ClosureType.CLOSURE_BSDF_PRINCIPLED_DIFFUSE_ID
            (make_float3 0 0 1) 0)
          (make_float3 0 0 1) (make_float3 0 0 1)
          (make_float3 0 0 0) (make_float3 0 0 0) 0 0
          (SampleOut.mk (make_float3 0 0 0) (make_float3 0 0 0)
            (make_float3 0 0 0) (make_float3 0 0 0) 0)).1).eval := by
  have hvalid : (0 : ℝ) < dot (make_float3 0 0 1)
      (sample_cos_hemisphere (make_float3 0 0 1) 0 0).1 := by
    rw [sample_cos_hemisphere_at_pole]
    norm_num [dot, make_float3]
  exact ⟨le_refl 0, zero_le_one, hvalid, sample_eval_reflect_consistency
    (PrincipledDiffuseBsdf.mk ClosureType.CLOSURE_BSDF_PRINCIPLED_DIFFUSE_ID
      (make_float3 0 0 1) 0)
    (make_float3 0 0 1) (make_float3 0 0 1)
    (make_float3 0 0 0) (make_float3 0 0 0) 0 0
    (SampleOut.mk (make_float3 0 0 0) (make_float3 0 0 0)
      (make_float3 0 0 0) (make_float3 0 0 0) 0)
    (le_refl 0) zero_le_one hvalid⟩

/-- C5 counterexample: `bsdf_principled_diffuse_setup` performs no clamping.
On an input closure with roughness `2` — outside the model's valid range
`[0,1]` — the returned closure still carries roughness `2`. -/
theorem setup_does_not_clamp_roughness :
    ((bsdf_principled_diffuse_setup
        (PrincipledDiffuseBsdf.mk ClosureType.CLOSURE_NONE_ID
          (make_float3 0 0 1) 2)).1).roughness = 2 ∧
    ¬ ((bsdf_principled_diffuse_setup
        (PrincipledDiffuseBsdf.mk ClosureType.CLOSURE_NONE_ID
          (make_float3 0 0 1) 2)).1).roughness ≤ 1 := by
  refine ⟨rfl, ?_⟩
  show ¬ (2 : ℝ) ≤ 1
  norm_num

/-- C5 amended: the setup routine never fails — for every input closure it
sets the type tag to `CLOSURE_BSDF_PRINCIPLED_DIFFUSE_ID` and returns the
capability flags `SD_BSDF ||| SD_BSDF_HAS_EVAL`, while leaving the roughness
parameter (and everything else) unchanged: no clamping or other
normalization happens in setup. -/
theorem setup_sets_type_and_flags (bsdf : PrincipledDiffuseBsdf) :
    bsdf_principled_diffuse_setup bsdf =
      ({ bsdf with type := ClosureType.CLOSURE_BSDF_PRINCIPLED_DIFFUSE_ID },
        SD_BSDF ||| SD_BSDF_HAS_EVAL) ∧
    ((bsdf_principled_diffuse_setup bsdf).1).roughness = bsdf.roughness :=
  ⟨rfl, rfl⟩

/-- C6 counterexample: `bsdf_principled_diffuse_eval_transmit` never writes
its pdf out-parameter; with a pre-call pdf of `1` the post-call pdf is still
`1`, not `0`. -/
theorem eval_transmit_does_not_write_pdf :
    (bsdf_principled_diffuse_eval_transmit
        (PrincipledDiffuseBsdf.mk ClosureType.CLOSURE_BSDF_PRINCIPLED_DIFFUSE_ID
          (make_float3 0 0 1) 0)
        (make_float3 0 0 1) (make_float3 0 0 1) 1).2 = 1 ∧
    (bsdf_principled_diffuse_eval_transmit
        (PrincipledDiffuseBsdf.mk ClosureType.CLOSURE_BSDF_PRINCIPLED_DIFFUSE_ID
          (make_float3 0 0 1) 0)
        (make_float3 0 0 1) (make_float3 0 0 1) 1).2 ≠ 0 := by
  refine ⟨rfl, ?_⟩
  show (1 : ℝ) ≠ 0
  norm_num

/-- C6 amended: for every input, `bsdf_principled_diffuse_eval_transmit`
returns a zero contribution in every color channel as a valid answer (never
an error); the pdf out-parameter is left untouched (post-call value equals
pre-call value), so it is zero exactly when the caller pre-initialized it to
zero. -/
theorem eval_transmit_zero_contribution
    (sc : PrincipledDiffuseBsdf) (I omega_in : float3) (pdf : ℝ) :
    bsdf_principled_diffuse_eval_transmit sc I omega_in pdf =
      (make_float3 0 0 0, pdf) := rfl

/-- Modelled from the spec: size, counted in scalar fields, of the shared
`SHADER_CLOSURE_BASE` header that every closure embeds (weight, type tag,
sample weight, shading normal); the macro is defined outside the analyzed
sources. -/
def SHADER_CLOSURE_BASE_SIZE : Nat := 8

/-- Modelled from the spec: the model-specific parameter counts of the known
closure variants; the principled diffuse closure carries one parameter
(`roughness`). -/
def closure_variant_param_counts : List Nat := [1]

/-- Modelled from the spec: the inline payload of `ShaderClosure` is sized to
the largest known closure variant. -/
def SHADER_CLOSURE_PAYLOAD_SIZE : Nat :=
  closure_variant_param_counts.foldr max 0

/-- Modelled from the spec: total size of `ShaderClosure`, in scalar
fields. -/
def sizeof_ShaderClosure : Nat :=
  SHADER_CLOSURE_BASE_SIZE + SHADER_CLOSURE_PAYLOAD_SIZE

/-- Size of `PrincipledDiffuseBsdf` in scalar fields: the shared base plus
the `roughness` parameter, following the struct declaration in the analyzed
header. -/
def sizeof_PrincipledDiffuseBsdf : Nat := SHADER_CLOSURE_BASE_SIZE + 1

/-- C7: the fixed-size inline closure payload bound holds for the principled
diffuse closure — the content of the compile-time static assertion
`sizeof(ShaderClosure) >= sizeof(PrincipledDiffuseBsdf)` is true of the
modelled layout, so the closure variant never exceeds the declared bound. -/
theorem shader_closure_size_bound :
    sizeof_PrincipledDiffuseBsdf ≤ sizeof_ShaderClosure := by decide

/-- Modelled from the spec: a work tile — rectangular pixel region, sample
range and buffer offset/stride (spec data model; `KernelWorkTile` is only
forward-declared in the analyzed sources). -/
structure KernelWorkTile where
  x : Nat
  y : Nat
  width : Nat
  height : Nat
  start_sample : Nat
  num_samples : Nat
  offset : Nat
  stride : Nat

/-- Modelled from the spec: running one tile through the full path-tracing
pipeline accumulates that whole tile (all its samples) into the render
buffers.  Accumulation is add-only, so the buffers are modelled as the list
of completed tile accumulations, newest first; the thread-local kernel
globals carry no buffer state and are omitted. -/
def render_samples_full_pipeline (buffers : List KernelWorkTile)
    (work_tile : KernelWorkTile) : List KernelWorkTile :=
  work_tile :: buffers

/-- Modelled from the spec: the tile loop of `render_samples` — the
cancellation flag is polled once before each tile (the poll index is the
first argument); if the flag is observed set, the remaining tiles are
skipped, otherwise the tile runs to completion through the full pipeline. -/
def render_samples_loop (cancel_requested : Nat → Bool) :
    Nat → List KernelWorkTile → List KernelWorkTile → List KernelWorkTile
  | _, [], buffers => buffers
  | i, t :: ts, buffers =>
    if cancel_requested i then buffers
    else render_samples_loop cancel_requested (i + 1) ts
      (render_samples_full_pipeline buffers t)

/-- Modelled from the spec: `render_samples` of `PathTraceWorkCPU` (only the
declaration is among the analyzed sources): drives the tile loop, polling the
cancellation flag from poll index `0`. -/
def render_samples (cancel_requested : Nat → Bool)
    (tiles : List KernelWorkTile) (buffers : List KernelWorkTile) :
    List KernelWorkTile :=
  render_samples_loop cancel_requested 0 tiles buffers

/-- Helper: characterization of the tile loop from any starting poll index:
some prefix of `k` tiles is fully accumulated, every poll before those tiles
observed the flag clear, and if tiles remain then the next poll observed the
flag set. -/
theorem render_samples_loop_spec (cancel_requested : Nat → Bool)
    (tiles : List KernelWorkTile) (i : Nat) (buffers : List KernelWorkTile) :
    ∃ k, k ≤ tiles.length ∧
      render_samples_loop cancel_requested i tiles buffers =
        (tiles.take k).reverse ++ buffers ∧
      (∀ j, j < k → cancel_requested (i + j) = false) ∧
      (k < tiles.length → cancel_requested (i + k) = true) := by
  induction tiles generalizing i buffers with
  | nil =>
    exact ⟨0, Nat.le_refl 0, rfl, fun j hj => absurd hj (Nat.not_lt_zero j),
      fun h => absurd h (Nat.not_lt_zero 0)⟩
  | cons t ts ih =>
    by_cases hc : cancel_requested i = true
    · refine ⟨0, Nat.zero_le _, ?_, fun j hj => absurd hj (Nat.not_lt_zero j),
        fun _ => by simpa using hc⟩
      simp [render_samples_loop, hc]
    · simp only [Bool.not_eq_true] at hc
      obtain ⟨k, hk, heq, hfalse, htrue⟩ :=
        ih (i + 1) (render_samples_full_pipeline buffers t)
      refine ⟨k + 1, Nat.succ_le_succ hk, ?_, ?_, ?_⟩
      · simp only [render_samples_full_pipeline] at heq
        simp [render_samples_loop, render_samples_full_pipeline, hc, heq,
          List.take_succ_cons, List.reverse_cons, List.append_assoc]
      · intro j hj
        cases j with
        | zero => simpa using hc
        | succ j =>
          have hj2 : j < k := Nat.lt_of_succ_lt_succ hj
          have := hfalse j hj2
          rw [show i + (j + 1) = i + 1 + j by omega]
          exact this
      · intro hlt
        have hlt2 : k < ts.length := Nat.lt_of_succ_lt_succ hlt
        have := htrue hlt2
        rw [show i + (k + 1) = i + 1 + k by omega]
        exact this

/-- C8: `render_samples` is safely cancellable at tile granularity — the
result of the run consists of some prefix of `k` tiles each accumulated whole
(no tile is truncated mid-flight) on top of the untouched pre-existing
buffers (already-accumulated samples are never rolled back); the flag was
polled once between tiles, observed clear before each processed tile, and
when tiles remain unprocessed the very next poll observed it set, so the
remaining tiles were skipped. -/
theorem render_samples_cancellation (cancel_requested : Nat → Bool)
    (tiles : List KernelWorkTile) (buffers : List KernelWorkTile) :
    ∃ k, k ≤ tiles.length ∧
      render_samples cancel_requested tiles buffers =
        (tiles.take k).reverse ++ buffers ∧
      (∀ j, j < k → cancel_requested j = false) ∧
      (k < tiles.length → cancel_requested k = true) := by
  have h := render_samples_loop_spec cancel_requested tiles 0 buffers
  simpa [render_samples] using h
